import Mathlib

/-!
Shallow embedding of the restaurant POS backend's order → kitchen-ticket →
printer pipeline (routes/printers.js, routes/kots.js, services/printerService.js,
database schema in the SQL migration file).

Database rows are Lean structures; the database is a record of row lists.
Money columns (DECIMAL(10,2)) are embedded as ℚ.  Each HTTP handler becomes a
pure function from a database state (plus request data and, where the real code
reads the clock or a random source, explicit numeric parameters) to a result
and a new database state.  MySQL transactions are modelled by returning the
original state on any rolled-back path.
-/

/-- A `menu_items` row (id, subcategory_id, name, price, is_available). -/
structure MenuItem where
  id : Nat
  subcategoryId : Nat
  name : String
  price : ℚ
  isAvailable : Bool
deriving DecidableEq

/-- A `subcategories` row (id, category_id). -/
structure Subcategory where
  id : Nat
  categoryId : Nat
deriving DecidableEq

/-- A `categories` row (id, name). -/
structure Category where
  id : Nat
  name : String
deriving DecidableEq

/-- An `orders` row; fields the pipeline reads or writes. -/
structure OrderRow where
  id : Nat
  orderNumber : String
  tableId : Option Nat
  sessionId : Option Nat
  customerName : Option String
  orderType : String
  subtotal : ℚ
  taxAmount : ℚ
  discountAmount : ℚ
  totalAmount : ℚ
  status : String
  paymentStatus : String
  specialInstructions : Option String
  createdBy : Option Nat
deriving DecidableEq

/-- An `order_items` row. -/
structure OrderItemRow where
  id : Nat
  orderId : Nat
  menuItemId : Nat
  quantity : Nat
  unitPrice : ℚ
  totalPrice : ℚ
  specialInstructions : Option String
  status : String
deriving DecidableEq

/-- A `kots` row (kitchen order ticket). -/
structure KotRow where
  id : Nat
  kotNumber : String
  orderId : Nat
  printerId : Option Nat
  categoryType : String
  status : String
  printedAt : Option Nat
  completedAt : Option Nat
deriving DecidableEq

/-- A `kot_items` row (ticket line, denormalized name/quantity). -/
structure KotItemRow where
  id : Nat
  kotId : Nat
  orderItemId : Nat
  menuItemName : String
  quantity : Nat
  specialInstructions : Option String
  status : String
deriving DecidableEq

/-- A `printers` row. -/
structure PrinterRow where
  id : Nat
  name : String
  type : String
  isActive : Bool
  isOnline : Bool
  lastTestPrint : Option Nat
deriving DecidableEq

/-- A `printer_category_mappings` row. -/
structure MappingRow where
  id : Nat
  printerId : Nat
  categoryId : Nat
  subcategoryId : Option Nat
deriving DecidableEq

/-- The database state visible to the pipeline.  `nextOrderId` etc. model the
AUTO_INCREMENT counters; `taxRateSetting` is the parsed `tax_rate` system
setting (absent when the settings row is missing); `kotAutoPrint` is whether
the `kot_auto_print` setting value equals the string true. -/
structure DB where
  menuItems : List MenuItem
  subcategories : List Subcategory
  categories : List Category
  orders : List OrderRow
  orderItems : List OrderItemRow
  kots : List KotRow
  kotItems : List KotItemRow
  printers : List PrinterRow
  mappings : List MappingRow
  taxRateSetting : Option ℚ
  kotAutoPrint : Bool
  nextOrderId : Nat
  nextOrderItemId : Nat
  nextKotId : Nat
  nextKotItemId : Nat
deriving DecidableEq

/-! ## Status-update handlers (routes/printers.js PUT /:id/status,
routes/kots.js PUT /:id/status and PUT /:kotId/items/:itemId/status)

Each handler first runs the express-validator `isIn` check on the requested
status and returns a 400 without touching the database when it fails;
otherwise it runs an unconditional UPDATE.  -/

/-- Allowed order statuses (printers.js order-status route `isIn`). -/
def orderStatuses : List String :=
  ["Pending", "Confirmed", "Preparing", "Ready", "Served", "Completed", "Cancelled"]

/-- Allowed KOT statuses (kots.js KOT-status route `isIn`). -/
def kotStatuses : List String :=
  ["Pending", "Printed", "Preparing", "Ready", "Served"]

/-- Allowed KOT item statuses (kots.js KOT-item-status route `isIn`). -/
def kotItemStatuses : List String :=
  ["Pending", "Preparing", "Ready", "Served"]

/-- PUT /api/orders/:id/status — validate the value, then
`UPDATE orders SET status = ? WHERE id = ?`.  Returns whether the request
succeeded, and the new state. -/
def updateOrderStatus (db : DB) (orderId : Nat) (status : String) : Bool × DB :=
  if status ∈ orderStatuses then
    (true, { db with
      orders := db.orders.map fun o =>
        if o.id = orderId then { o with status := status } else o })
  else (false, db)

/-- PUT /api/kots/:id/status — validate the value, update the KOT row
(also setting `completed_at` when the new status is Ready), and when the new
status is Ready additionally
`UPDATE kot_items SET status = "Ready" WHERE kot_id = ?`. -/
def updateKotStatus (db : DB) (kotId : Nat) (status : String) (now : Nat) : Bool × DB :=
  if status ∈ kotStatuses then
    let db1 := { db with
      kots := db.kots.map fun k =>
        if k.id = kotId then
          { k with status := status,
                   completedAt := if status = "Ready" then some now else k.completedAt }
        else k }
    let db2 :=
      if status = "Ready" then
        { db1 with
          kotItems := db1.kotItems.map fun ki =>
            if ki.kotId = kotId then { ki with status := "Ready" } else ki }
      else db1
    (true, db2)
  else (false, db)

/-- PUT /api/kots/:kotId/items/:itemId/status — validate the value, run
`UPDATE kot_items SET status = ? WHERE id = ? AND kot_id = ?`, and when the new
status is Ready and no line of the ticket is left non-Ready, cascade
`UPDATE kots SET status = "Ready", completed_at = NOW() WHERE id = ?`. -/
def updateKotItemStatus (db : DB) (kotId itemId : Nat) (status : String) (now : Nat) :
    Bool × DB :=
  if status ∈ kotItemStatuses then
    let db1 := { db with
      kotItems := db.kotItems.map fun ki =>
        if ki.id = itemId ∧ ki.kotId = kotId then { ki with status := status } else ki }
    let db2 :=
      if status = "Ready" then
        if (db1.kotItems.filter fun ki => ki.kotId == kotId && ki.status != "Ready").length
            = 0 then
          { db1 with
            kots := db1.kots.map fun k =>
              if k.id = kotId then
                { k with status := "Ready", completedAt := some now }
              else k }
        else db1
      else db1
    (true, db2)
  else (false, db)

/-! ## Order creation (routes/printers.js POST /)

The handler opens a transaction, validates the request, resolves and prices
each line against `menu_items`, computes tax from the `tax_rate` setting
(default 8.5), inserts the order, its order items, one KOT and one KOT item
per order item, and commits.  Every failure path (validation, unavailable
item, or a database fault at any insert) rolls the transaction back, so the
function returns the original state there.  After commit, when the
`kot_auto_print` setting is enabled, the KOT is auto-printed with any error
caught and ignored. -/

/-- One entry of the request's `items` array. -/
structure ReqItem where
  menuItemId : Nat
  quantity : Nat
  specialInstructions : Option String
deriving DecidableEq

/-- The create-order request body (after authentication). -/
structure CreateReq where
  tableId : Option Nat
  sessionId : Option Nat
  customerName : Option String
  orderType : String
  items : List ReqItem
  specialInstructions : Option String
  userId : Nat
deriving DecidableEq

/-- The express-validator checks on the create-order request:
`order_type` in its enumerated set, `items` a non-empty array, every
quantity an integer ≥ 1. -/
def validReq (r : CreateReq) : Bool :=
  (r.orderType ∈ ["Dine-in", "Takeaway", "Delivery"] : Bool)
    && !r.items.isEmpty
    && r.items.all fun it => 1 ≤ it.quantity

/-- A priced line: the menu-item snapshot taken while looping over the
request items (`orderItems.push` in the source). -/
structure ResolvedItem where
  menuItemId : Nat
  name : String
  quantity : Nat
  unitPrice : ℚ
  totalPrice : ℚ
  specialInstructions : Option String
deriving DecidableEq

/-- `SELECT * FROM menu_items WHERE id = ? AND is_available = TRUE`. -/
def findAvailableMenuItem (db : DB) (id : Nat) : Option MenuItem :=
  db.menuItems.find? fun mi => mi.id == id && mi.isAvailable

/-- Resolve and price every request line; `none` when some referenced menu
item is missing or unavailable (the source rolls back and returns 400 on the
first such line). -/
def resolveItems (db : DB) : List ReqItem → Option (List ResolvedItem)
  | [] => some []
  | it :: rest =>
    match findAvailableMenuItem db it.menuItemId with
    | none => none
    | some mi =>
      (resolveItems db rest).map fun rs =>
        { menuItemId := it.menuItemId
          name := mi.name
          quantity := it.quantity
          unitPrice := mi.price
          totalPrice := mi.price * (it.quantity : ℚ)
          specialInstructions := it.specialInstructions } :: rs

/-- The category sets hard-coded in the source. -/
def foodCategories : List String := ["Food"]

/-- The beverage category set hard-coded in the source. -/
def drinkCategories : List String := ["Drinks", "Beverages"]

/-- The category name of a menu item via `subcategories` and `categories`
(the two JOINs of the classifier query). -/
def categoryNameOf (db : DB) (mi : MenuItem) : Option String :=
  (db.subcategories.find? fun sc => sc.id == mi.subcategoryId).bind fun sc =>
    (db.categories.find? fun c => c.id == sc.categoryId).map fun c => c.name

/-- `SELECT DISTINCT c.name FROM menu_items mi JOIN subcategories sc ...
JOIN categories c ... WHERE mi.id IN (ids)`. -/
def distinctCategoryNames (db : DB) (menuItemIds : List Nat) : List String :=
  (((db.menuItems.filter fun mi => menuItemIds.contains mi.id).filterMap
      (categoryNameOf db))).dedup

/-- The classifier's decision: Food when every fetched category name is in the
food set, else Beverages when every one is in the drink set, else the initial
value Mixed. -/
def classifyCategories (names : List String) : String :=
  if names.all fun c => foodCategories.contains c then "Food"
  else if names.all fun c => drinkCategories.contains c then "Beverages"
  else "Mixed"

/-- The rows the transaction inserts on the success path. -/
structure TxnOut where
  order : OrderRow
  items : List OrderItemRow
  kot : KotRow
  kotItems : List KotItemRow
deriving DecidableEq

/-- The per-line `INSERT INTO order_items ...` loop, with the
AUTO_INCREMENT ids it hands out. -/
def buildOrderItems (orderId startId : Nat) : List ResolvedItem → List OrderItemRow
  | [] => []
  | r :: rs =>
    { id := startId
      orderId := orderId
      menuItemId := r.menuItemId
      quantity := r.quantity
      unitPrice := r.unitPrice
      totalPrice := r.totalPrice
      specialInstructions := r.specialInstructions
      status := "Pending" } :: buildOrderItems orderId (startId + 1) rs

/-- The per-line `INSERT INTO kot_items ...` loop over the just-inserted
order items, denormalizing the menu item name
(`SELECT name FROM menu_items WHERE id = ?`). -/
def buildKotItems (db : DB) (kotId startId : Nat) : List OrderItemRow → List KotItemRow
  | [] => []
  | oi :: rest =>
    { id := startId
      kotId := kotId
      orderItemId := oi.id
      menuItemName :=
        (((db.menuItems.find? fun mi => mi.id == oi.menuItemId).map fun mi => mi.name)).getD ""
      quantity := oi.quantity
      specialInstructions := oi.specialInstructions
      status := "Pending" } :: buildKotItems db kotId (startId + 1) rest

/-- The configured tax rate: the parsed `tax_rate` setting, defaulting to 8.5
when the settings row is absent. -/
def taxRateOf (db : DB) : ℚ :=
  db.taxRateSetting.getD (17 / 2)

/-- DECIMAL(10,2) storage rounding: MySQL rounds an inserted value with
excess fractional digits to the column's two-decimal scale, half away from
zero (for a non-negative value, floor of q·100 + 1/2, over 100). -/
def round2 (q : ℚ) : ℚ :=
  if 0 ≤ q then (round (q * 100) : ℚ) / 100
  else -((round (-q * 100) : ℚ) / 100)

/-- All rows the transaction inserts, computed from the resolved lines.
`now`/`rand` stand for `Date.now()` and the random suffix used in the order
and KOT numbers.  The handler computes the raw tax `subtotal * rate / 100`
and total `subtotal + tax`; the orders table stores both in DECIMAL(10,2)
columns, which round to two decimals on insert (`round2`).  The subtotal —
a sum of DECIMAL(10,2) catalog prices times integer quantities — is already
an exact two-decimal value, so its own storage rounding is the identity and
the stored total `round2 (subtotal + rawTax)` equals
`subtotal + round2 rawTax`, the form persisted here. -/
def buildTxn (db : DB) (req : CreateReq) (resolved : List ResolvedItem)
    (now rand : Nat) : TxnOut :=
  let subtotal := (resolved.map fun r => r.totalPrice).sum
  let taxAmount := round2 (subtotal * taxRateOf db / 100)
  let totalAmount := subtotal + taxAmount
  let orderId := db.nextOrderId
  let kotId := db.nextKotId
  { order :=
      { id := orderId
        orderNumber := s!"ORD-{now}-{rand % 1000}"
        tableId := req.tableId
        sessionId := req.sessionId
        customerName := req.customerName
        orderType := req.orderType
        subtotal := subtotal
        taxAmount := taxAmount
        discountAmount := 0
        totalAmount := totalAmount
        status := "Pending"
        paymentStatus := "Unpaid"
        specialInstructions := req.specialInstructions
        createdBy := some req.userId }
    items := buildOrderItems orderId db.nextOrderItemId resolved
    kot :=
      { id := kotId
        kotNumber := s!"KOT-{now}-{rand % 1000}"
        orderId := orderId
        printerId := none
        categoryType :=
          classifyCategories
            (distinctCategoryNames db (req.items.map fun it => it.menuItemId))
        status := "Pending"
        printedAt := none
        completedAt := none }
    kotItems := buildKotItems db kotId db.nextKotItemId
      (buildOrderItems orderId db.nextOrderItemId resolved) }

/-- COMMIT: append the inserted rows and advance the AUTO_INCREMENT counters. -/
def commitTxn (db : DB) (out : TxnOut) : DB :=
  { db with
    orders := db.orders ++ [out.order]
    orderItems := db.orderItems ++ out.items
    kots := db.kots ++ [out.kot]
    kotItems := db.kotItems ++ out.kotItems
    nextOrderId := db.nextOrderId + 1
    nextOrderItemId := db.nextOrderItemId + out.items.length
    nextKotId := db.nextKotId + 1
    nextKotItemId := db.nextKotItemId + out.kotItems.length }

/-- Injected database faults, to model a DB-level failure at each insert of
the transaction: a flag for the order and KOT inserts, and an optional index
for the order-item and KOT-item insert loops. -/
structure Fault where
  failOrderInsert : Bool
  failOrderItemInsert : Option Nat
  failKotInsert : Bool
  failKotItemInsert : Option Nat
deriving DecidableEq

/-- Whether an optional fault index hits a loop of `n` inserts. -/
def faultHits (idx : Option Nat) (n : Nat) : Bool :=
  match idx with
  | some i => i < n
  | none => false

/-- No injected fault. -/
def noFault : Fault :=
  { failOrderInsert := false, failOrderItemInsert := none
    failKotInsert := false, failKotItemInsert := none }

/-- Outcome of the create-order handler. -/
inductive CreateResult where
  /-- 201: order id, order number, KOT number, total amount — plus the KOT id
  the handler keeps in scope for auto-printing. -/
  | created (orderId : Nat) (orderNumber kotNumber : String) (total : ℚ) (kotId : Nat)
  /-- 400 from express-validator. -/
  | validationError
  /-- 400: some menu item not found or unavailable. -/
  | itemUnavailable
  /-- 500: a database failure rolled the transaction back. -/
  | serverError
deriving DecidableEq

/-- Whether a create-order outcome is the 201 success. -/
def CreateResult.isCreated : CreateResult → Bool
  | created _ _ _ _ _ => true
  | _ => false

/-- The transactional part of POST / (steps up to and including COMMIT).
Every rolled-back path returns the original state. -/
def createOrderTxn (db : DB) (req : CreateReq) (f : Fault) (now rand : Nat) :
    CreateResult × DB :=
  if validReq req then
    match resolveItems db req.items with
    | none => (CreateResult.itemUnavailable, db)
    | some resolved =>
      if f.failOrderInsert then (CreateResult.serverError, db)
      else if faultHits f.failOrderItemInsert resolved.length then
        (CreateResult.serverError, db)
      else if f.failKotInsert then (CreateResult.serverError, db)
      else if faultHits f.failKotItemInsert resolved.length then
        (CreateResult.serverError, db)
      else
        let out := buildTxn db req resolved now rand
        (CreateResult.created out.order.id out.order.orderNumber out.kot.kotNumber
          out.order.totalAmount out.kot.id, commitTxn db out)
  else (CreateResult.validationError, db)

/-! ## Printer service (services/printerService.js)

`printKOT` looks the ticket up (joined to its order), selects a printer —
first any active+online printer with a category mapping whose subcategory is
touched by the ticket's lines, else any active+online Kitchen printer — and
dispatches the job.  Only a successful dispatch writes: it sets the ticket to
Printed with `printed_at`.  A failed dispatch throws without any database
write.  `testPrinter` is the only operation that marks a printer offline on
failure. -/

/-- Outcome of `printKOT`. -/
inductive PrintResult where
  /-- Job dispatched to the given printer; ticket set to Printed. -/
  | success (printerId : Nat)
  /-- The KOT (joined to its order) was not found. -/
  | kotNotFound
  /-- No category-mapped and no active+online Kitchen printer. -/
  | noPrinter
  /-- The selected printer row disappeared or is inactive at connection setup. -/
  | initFailed
  /-- The connectivity check failed; the error is thrown to the caller. -/
  | notConnected
deriving DecidableEq

/-- Whether a print outcome is the success case. -/
def PrintResult.isSuccess : PrintResult → Bool
  | success _ => true
  | _ => false

/-- The category-mapping join of the printer-selection query: the printer has
a mapping row whose subcategory is the subcategory of a menu item referenced
by an order item that a line of this ticket points at. -/
def kotTouchesPrinterMapping (db : DB) (kotId : Nat) (p : PrinterRow) : Bool :=
  db.mappings.any fun m =>
    m.printerId == p.id &&
      match m.subcategoryId with
      | none => false
      | some scId =>
        db.subcategories.any fun sc =>
          sc.id == scId &&
            (db.menuItems.any fun mi =>
              mi.subcategoryId == sc.id &&
                (db.orderItems.any fun oi =>
                  oi.menuItemId == mi.id &&
                    (db.kotItems.any fun ki =>
                      ki.orderItemId == oi.id && ki.kotId == kotId)))

/-- Printer selection: the mapping query with `LIMIT 1`, falling back to
`SELECT id FROM printers WHERE type = "Kitchen" AND is_active = TRUE AND
is_online = TRUE LIMIT 1`. -/
def selectPrinter (db : DB) (kotId : Nat) : Option Nat :=
  match db.printers.find? fun p =>
      p.isActive && p.isOnline && kotTouchesPrinterMapping db kotId p with
  | some p => some p.id
  | none =>
    (((db.printers.find? fun p => p.type == "Kitchen" && p.isActive && p.isOnline)).map
      fun p => p.id)

/-- `printKOT`: look up the ticket (inner-joined to its order), select a
printer, set the connection up (`SELECT * FROM printers WHERE id = ? AND
is_active = TRUE`), check connectivity, and only on success update the ticket
to Printed with `printed_at = NOW()`.  `connected` stands for the physical
connectivity answer of the thermal-printer library. -/
def printKOT (db : DB) (kotId : Nat) (connected : Bool) (now : Nat) :
    PrintResult × DB :=
  match db.kots.find? fun k =>
      k.id == kotId && db.orders.any fun o => o.id == k.orderId with
  | none => (PrintResult.kotNotFound, db)
  | some _ =>
    match selectPrinter db kotId with
    | none => (PrintResult.noPrinter, db)
    | some pid =>
      match db.printers.find? fun p => p.id == pid && p.isActive with
      | none => (PrintResult.initFailed, db)
      | some _ =>
        if connected then
          (PrintResult.success pid,
            { db with
              kots := db.kots.map fun k =>
                if k.id = kotId then
                  { k with status := "Printed", printedAt := some now }
                else k })
        else (PrintResult.notConnected, db)

/-- `UPDATE printers SET is_online = FALSE WHERE id = ?`. -/
def markOffline (db : DB) (printerId : Nat) : DB :=
  { db with
    printers := db.printers.map fun p =>
      if p.id = printerId then { p with isOnline := false } else p }

/-- `testPrinter`: set the connection up (a missing/inactive printer throws),
check connectivity; on success record `last_test_print` and set the printer
online, and on any failure the catch block marks the printer offline. -/
def testPrinter (db : DB) (printerId : Nat) (connected : Bool) (now : Nat) :
    Bool × DB :=
  match db.printers.find? fun p => p.id == printerId && p.isActive with
  | none => (false, markOffline db printerId)
  | some _ =>
    if connected then
      (true,
        { db with
          printers := db.printers.map fun p =>
            if p.id = printerId then
              { p with lastTestPrint := some now, isOnline := true }
            else p })
    else (false, markOffline db printerId)

/-- The whole POST / handler: the transaction, then — once committed — the
auto-print step guarded by the `kot_auto_print` setting, with any print error
caught so the 201 response with the order data is sent regardless. -/
def createOrderRoute (db : DB) (req : CreateReq) (f : Fault) (now rand : Nat)
    (connected : Bool) : CreateResult × DB :=
  match createOrderTxn db req f now rand with
  | (CreateResult.created oid onum knum tot kid, db1) =>
    let db2 := if db1.kotAutoPrint then (printKOT db1 kid connected now).2 else db1
    (CreateResult.created oid onum knum tot kid, db2)
  | r => r

/-! ## Concrete states used by witnesses and counterexamples -/

/-- A small state: one Pending order, one Pending ticket for it with two
lines (one Ready, one Pending), and one active online Kitchen printer. -/
def wDb : DB :=
  { menuItems := [{ id := 1, subcategoryId := 1, name := "Tea", price := 1,
                    isAvailable := true }]
    subcategories := []
    categories := []
    orders := [{ id := 1, orderNumber := "ORD-1", tableId := none, sessionId := none,
                 customerName := none, orderType := "Dine-in", subtotal := 1,
                 taxAmount := 0, discountAmount := 0, totalAmount := 1,
                 status := "Pending", paymentStatus := "Unpaid",
                 specialInstructions := none, createdBy := none }]
    orderItems := [{ id := 1, orderId := 1, menuItemId := 1, quantity := 1,
                     unitPrice := 1, totalPrice := 1, specialInstructions := none,
                     status := "Pending" }]
    kots := [{ id := 1, kotNumber := "KOT-1", orderId := 1, printerId := none,
               categoryType := "Food", status := "Pending", printedAt := none,
               completedAt := none }]
    kotItems := [{ id := 1, kotId := 1, orderItemId := 1, menuItemName := "Tea",
                   quantity := 1, specialInstructions := none, status := "Ready" },
                 { id := 2, kotId := 1, orderItemId := 2, menuItemName := "Pie",
                   quantity := 1, specialInstructions := none, status := "Pending" }]
    printers := [{ id := 1, name := "K1", type := "Kitchen", isActive := true,
                   isOnline := true, lastTestPrint := none }]
    mappings := []
    taxRateSetting := none
    kotAutoPrint := false
    nextOrderId := 2, nextOrderItemId := 3, nextKotId := 2, nextKotItemId := 3 }

/-- A variant of `wDb` whose ticket is already Ready and whose single line is
Served. -/
def readyDb : DB :=
  { wDb with
    kots := [{ id := 1, kotNumber := "KOT-1", orderId := 1, printerId := none,
               categoryType := "Food", status := "Ready", printedAt := none,
               completedAt := some 3 }]
    kotItems := [{ id := 1, kotId := 1, orderItemId := 1, menuItemName := "Tea",
                   quantity := 1, specialInstructions := none, status := "Served" }] }

/-! ## C9: status updates validate only value-set membership -/

/-- C9: every status-update operation (order, ticket, ticket line) rejects a
requested value outside its enumerated set before any write — the state is
returned unchanged — and accepts any value inside the set regardless of the
row's current status, since the UPDATE is unconditional on the current state. -/
theorem status_updates_value_set_only
    (db : DB) (oid kid iid now : Nat) (so so' sk sk' si si' : String)
    (h1 : so ∉ orderStatuses) (h2 : so' ∈ orderStatuses)
    (h3 : sk ∉ kotStatuses) (h4 : sk' ∈ kotStatuses)
    (h5 : si ∉ kotItemStatuses) (h6 : si' ∈ kotItemStatuses) :
    updateOrderStatus db oid so = (false, db) ∧
    ((updateOrderStatus db oid so').1 = true ∧
      (updateOrderStatus db oid so').2.orders =
        db.orders.map fun o => if o.id = oid then { o with status := so' } else o) ∧
    updateKotStatus db kid sk now = (false, db) ∧
    (updateKotStatus db kid sk' now).1 = true ∧
    updateKotItemStatus db kid iid si now = (false, db) ∧
    (updateKotItemStatus db kid iid si' now).1 = true := by
  refine ⟨?_, ⟨?_, ?_⟩, ?_, ?_, ?_, ?_⟩ <;>
    simp [updateOrderStatus, updateKotStatus, updateKotItemStatus,
      h1, h2, h3, h4, h5, h6]

/-- Witness for C9: on a state whose ticket is already Ready, the value
Bogus is rejected everywhere with the state unchanged, while Pending — a
backward move from Ready — is accepted everywhere. -/
theorem status_updates_value_set_only_witness :
    updateOrderStatus readyDb 1 "Bogus" = (false, readyDb) ∧
    ((updateOrderStatus readyDb 1 "Pending").1 = true ∧
      (updateOrderStatus readyDb 1 "Pending").2.orders =
        readyDb.orders.map fun o =>
          if o.id = 1 then { o with status := "Pending" } else o) ∧
    updateKotStatus readyDb 1 "Bogus" 9 = (false, readyDb) ∧
    (updateKotStatus readyDb 1 "Pending" 9).1 = true ∧
    updateKotItemStatus readyDb 1 1 "Bogus" 9 = (false, readyDb) ∧
    (updateKotItemStatus readyDb 1 1 "Pending" 9).1 = true :=
  status_updates_value_set_only readyDb 1 1 1 9 "Bogus" "Pending" "Bogus" "Pending"
    "Bogus" "Pending" (by decide) (by decide) (by decide) (by decide) (by decide)
    (by decide)

/-! ## Unfolding equations for the update handlers -/

/-- Accepted order-status update, unfolded. -/
theorem updateOrderStatus_pos (db : DB) (oid : Nat) (s : String)
    (hs : s ∈ orderStatuses) :
    updateOrderStatus db oid s =
      (true, { db with orders := db.orders.map fun (o : OrderRow) =>
        if o.id = oid then { o with status := s } else o }) := by
  unfold updateOrderStatus
  rw [if_pos hs]

/-- KOT-status update to Ready, unfolded: the row update plus the downward
line cascade. -/
theorem updateKotStatus_ready_eq (db : DB) (kotId now : Nat) :
    updateKotStatus db kotId "Ready" now =
      (true, { db with
        kots := db.kots.map fun (k : KotRow) =>
          if k.id = kotId then { k with status := "Ready", completedAt := some now }
          else k
        kotItems := db.kotItems.map fun (ki : KotItemRow) =>
          if ki.kotId = kotId then { ki with status := "Ready" } else ki }) := rfl

/-- Accepted KOT-status update to a non-Ready value, unfolded. -/
theorem updateKotStatus_other_eq (db : DB) (kotId now : Nat) (s : String)
    (hs : s ∈ kotStatuses) (hns : s ≠ "Ready") :
    updateKotStatus db kotId s now =
      (true, { db with kots := db.kots.map fun (k : KotRow) =>
        if k.id = kotId then { k with status := s } else k }) := by
  unfold updateKotStatus
  rw [if_pos hs]
  simp only [if_neg hns]

/-- Accepted KOT-item-status update, unfolded. -/
theorem updateKotItemStatus_eq (db : DB) (kotId itemId : Nat) (s : String)
    (now : Nat) (hs : s ∈ kotItemStatuses) :
    updateKotItemStatus db kotId itemId s now =
      (true,
        let items1 := db.kotItems.map fun (ki : KotItemRow) =>
          if ki.id = itemId ∧ ki.kotId = kotId then { ki with status := s } else ki
        if s = "Ready" then
          if (items1.filter fun ki => ki.kotId == kotId && ki.status != "Ready").length
              = 0 then
            { db with
              kotItems := items1
              kots := db.kots.map fun (k : KotRow) =>
                if k.id = kotId then
                  { k with status := "Ready", completedAt := some now }
                else k }
          else { db with kotItems := items1 }
        else { db with kotItems := items1 }) := by
  unfold updateKotItemStatus
  rw [if_pos hs]

/-! ## C10: a direct Ready update on a ticket cascades down to its lines -/

/-- C10: updating a ticket's status directly to Ready sets the ticket's
completed timestamp and overwrites the status of every line of that ticket
with Ready, whatever it was before (including Served); a request for any
other allowed ticket status leaves the ticket's lines unchanged. -/
theorem kot_ready_cascades_to_lines (db : DB) (kotId now : Nat) (s : String)
    (hs : s ∈ kotStatuses) (hns : s ≠ "Ready") :
    ((∀ k ∈ (updateKotStatus db kotId "Ready" now).2.kots,
        k.id = kotId → k.status = "Ready" ∧ k.completedAt = some now) ∧
      (∀ ki ∈ (updateKotStatus db kotId "Ready" now).2.kotItems,
        ki.kotId = kotId → ki.status = "Ready")) ∧
    (updateKotStatus db kotId s now).2.kotItems = db.kotItems := by
  refine ⟨⟨?_, ?_⟩, ?_⟩
  · intro k hk hkid
    rw [updateKotStatus_ready_eq] at hk
    dsimp only at hk
    rw [List.mem_map] at hk
    obtain ⟨k0, _, rfl⟩ := hk
    by_cases h : k0.id = kotId
    · simp [h]
    · simp only [if_neg h] at hkid ⊢
      exact absurd hkid h
  · intro ki hki hkid
    rw [updateKotStatus_ready_eq] at hki
    dsimp only at hki
    rw [List.mem_map] at hki
    obtain ⟨ki0, _, rfl⟩ := hki
    by_cases h : ki0.kotId = kotId
    · simp [h]
    · simp only [if_neg h] at hkid ⊢
      exact absurd hkid h
  · rw [updateKotStatus_other_eq db kotId now s hs hns]

/-- Witness for C10: on a ticket whose only line is Served, a direct Ready
update makes the ticket Ready with completed timestamp 4 and forces the
Served line back to Ready, while a Preparing update leaves the lines alone. -/
theorem kot_ready_cascades_to_lines_witness :
    ((∀ k ∈ (updateKotStatus readyDb 1 "Ready" 4).2.kots,
        k.id = 1 → k.status = "Ready" ∧ k.completedAt = some 4) ∧
      (∀ ki ∈ (updateKotStatus readyDb 1 "Ready" 4).2.kotItems,
        ki.kotId = 1 → ki.status = "Ready")) ∧
    (updateKotStatus readyDb 1 "Preparing" 4).2.kotItems = readyDb.kotItems :=
  kot_ready_cascades_to_lines readyDb 1 4 "Preparing" (by decide) (by decide)

/-! ## C2: a line update that makes all lines Ready cascades to the ticket -/

/-- C2: for a ticket-line status update (of a line that belongs to the
ticket, with an allowed value) after which every line of the ticket is Ready,
the ticket itself transitions to Ready with its completed timestamp set;
when some line of the ticket is not Ready after the update, the ticket rows
are left unchanged by the operation. -/
theorem kot_item_ready_cascade (db : DB) (kotId itemId : Nat) (status : String)
    (now : Nat) (hs : status ∈ kotItemStatuses)
    (hex : ∃ ki ∈ db.kotItems, ki.id = itemId ∧ ki.kotId = kotId) :
    ((∀ ki ∈ (updateKotItemStatus db kotId itemId status now).2.kotItems,
        ki.kotId = kotId → ki.status = "Ready") →
      ∀ k ∈ (updateKotItemStatus db kotId itemId status now).2.kots,
        k.id = kotId → k.status = "Ready" ∧ k.completedAt = some now) ∧
    ((∃ ki ∈ (updateKotItemStatus db kotId itemId status now).2.kotItems,
        ki.kotId = kotId ∧ ki.status ≠ "Ready") →
      (updateKotItemStatus db kotId itemId status now).2.kots = db.kots) := by
  obtain ⟨ki0, hki0, hid0, hkot0⟩ := hex
  rw [updateKotItemStatus_eq db kotId itemId status now hs]
  dsimp only
  by_cases hR : status = "Ready"
  · subst hR
    rw [if_pos rfl]
    by_cases hc :
        ((db.kotItems.map fun (ki : KotItemRow) =>
            if ki.id = itemId ∧ ki.kotId = kotId then { ki with status := "Ready" }
            else ki).filter
          fun ki => ki.kotId == kotId && ki.status != "Ready").length = 0
    · rw [if_pos hc]
      constructor
      · intro _ k hk hkid
        dsimp only at hk
        rw [List.mem_map] at hk
        obtain ⟨k0, _, rfl⟩ := hk
        by_cases h : k0.id = kotId
        · simp [h]
        · simp only [if_neg h] at hkid ⊢
          exact absurd hkid h
      · rintro ⟨ki, hki, hkotki, hne⟩
        exfalso
        rw [List.length_eq_zero, List.filter_eq_nil_iff] at hc
        dsimp only at hki
        have hp := hc ki hki
        simp only [Bool.and_eq_true, beq_iff_eq, bne_iff_ne, not_and, not_not] at hp
        exact hne (hp hkotki)
    · rw [if_neg hc]
      constructor
      · intro hall k hk hkid
        exfalso
        apply hc
        rw [List.length_eq_zero, List.filter_eq_nil_iff]
        intro x hx
        dsimp only at hall
        simp only [Bool.and_eq_true, beq_iff_eq, bne_iff_ne, not_and, not_not]
        intro hxk
        exact hall x hx hxk
      · intro _
        rfl
  · rw [if_neg hR]
    constructor
    · intro hall k hk hkid
      exfalso
      have hmem := List.mem_map_of_mem
        (fun (ki : KotItemRow) =>
          if ki.id = itemId ∧ ki.kotId = kotId then { ki with status := status }
          else ki) hki0
      dsimp only at hmem
      rw [if_pos (⟨hid0, hkot0⟩ : ki0.id = itemId ∧ ki0.kotId = kotId)] at hmem
      dsimp only at hall
      exact hR (hall _ hmem hkot0)
    · intro _
      rfl

/-- Witness for C2: on the two-line ticket of `wDb` (lines Ready and
Pending), updating line 2 to Ready leaves no non-Ready line, so the ticket
becomes Ready with completed timestamp 5. -/
theorem kot_item_ready_cascade_witness :
    ((∀ ki ∈ (updateKotItemStatus wDb 1 2 "Ready" 5).2.kotItems,
        ki.kotId = 1 → ki.status = "Ready") →
      ∀ k ∈ (updateKotItemStatus wDb 1 2 "Ready" 5).2.kots,
        k.id = 1 → k.status = "Ready" ∧ k.completedAt = some 5) ∧
    ((∃ ki ∈ (updateKotItemStatus wDb 1 2 "Ready" 5).2.kotItems,
        ki.kotId = 1 ∧ ki.status ≠ "Ready") →
      (updateKotItemStatus wDb 1 2 "Ready" 5).2.kots = wDb.kots) :=
  kot_item_ready_cascade wDb 1 2 "Ready" 5 (by decide)
    ⟨{ id := 2, kotId := 1, orderItemId := 2, menuItemName := "Pie",
       quantity := 1, specialInstructions := none, status := "Pending" },
      by decide, rfl, rfl⟩

/-! ## C6: no Completed-with-active-ticket guard exists -/

/-- Counterexample to C6: in `wDb` the only ticket of order 1 is Pending —
active, neither Served nor cancelled — yet the request to set order 1 to
Completed is accepted and the order's status becomes Completed; nothing is
rejected and the order does not stay unchanged. -/
theorem completed_accepted_with_active_ticket :
    (wDb.kots.map fun k => (k.orderId, k.status)) = [(1, "Pending")] ∧
    (updateOrderStatus wDb 1 "Completed").1 = true ∧
    ((updateOrderStatus wDb 1 "Completed").2.orders.map fun o => o.status)
      = ["Completed"] := by
  decide

/-- C6 amended: the order-status handler validates only membership of the
requested value in the enumerated set; it performs no check against the
order's tickets, so any allowed value — including Completed while an active
ticket exists — is accepted, the matching order rows get the requested
status, and the ticket rows are not consulted or modified. -/
theorem order_status_update_ignores_tickets (db : DB) (oid : Nat) (s : String)
    (hs : s ∈ orderStatuses) :
    (updateOrderStatus db oid s).1 = true ∧
    (updateOrderStatus db oid s).2.orders =
      (db.orders.map fun (o : OrderRow) =>
        if o.id = oid then { o with status := s } else o) ∧
    (updateOrderStatus db oid s).2.kots = db.kots := by
  rw [updateOrderStatus_pos db oid s hs]
  exact ⟨rfl, rfl, rfl⟩

/-- Witness for the amended C6 at `wDb`, whose order 1 has a Pending ticket:
Completed is accepted and applied with the ticket rows untouched. -/
theorem order_status_update_ignores_tickets_witness :
    (updateOrderStatus wDb 1 "Completed").1 = true ∧
    (updateOrderStatus wDb 1 "Completed").2.orders =
      (wDb.orders.map fun (o : OrderRow) =>
        if o.id = 1 then { o with status := "Completed" } else o) ∧
    (updateOrderStatus wDb 1 "Completed").2.kots = wDb.kots :=
  order_status_update_ignores_tickets wDb 1 "Completed" (by decide)

/-! ## C4: the category classifier is a function of the category-name set -/

/-- When every fetched category name is in the food set the classifier says
Food. -/
theorem classifyCategories_food (names : List String)
    (h : ∀ n ∈ names, n ∈ foodCategories) :
    classifyCategories names = "Food" := by
  unfold classifyCategories
  rw [if_pos (List.all_eq_true.mpr fun n hn => List.elem_iff.mpr (h n hn))]

/-- When not every name is food but every name is in the drink set the
classifier says Beverages. -/
theorem classifyCategories_beverages (names : List String)
    (hnf : ¬∀ n ∈ names, n ∈ foodCategories)
    (hd : ∀ n ∈ names, n ∈ drinkCategories) :
    classifyCategories names = "Beverages" := by
  unfold classifyCategories
  rw [if_neg, if_pos (List.all_eq_true.mpr fun n hn => List.elem_iff.mpr (hd n hn))]
  intro hall
  exact hnf fun n hn => List.elem_iff.mp (List.all_eq_true.mp hall n hn)

/-- When neither every name is food nor every name is drink the classifier
keeps the initial value Mixed. -/
theorem classifyCategories_mixed (names : List String)
    (hnf : ¬∀ n ∈ names, n ∈ foodCategories)
    (hnd : ¬∀ n ∈ names, n ∈ drinkCategories) :
    classifyCategories names = "Mixed" := by
  unfold classifyCategories
  rw [if_neg, if_neg]
  · intro hall
    exact hnd fun n hn => List.elem_iff.mp (List.all_eq_true.mp hall n hn)
  · intro hall
    exact hnf fun n hn => List.elem_iff.mp (List.all_eq_true.mp hall n hn)

/-- The classifier depends only on which names occur, not on their order or
multiplicity. -/
theorem classifyCategories_congr (l1 l2 : List String)
    (h : ∀ n, n ∈ l1 ↔ n ∈ l2) :
    classifyCategories l1 = classifyCategories l2 := by
  unfold classifyCategories
  have e1 : (l1.all fun c => foodCategories.contains c)
      = (l2.all fun c => foodCategories.contains c) := by
    rw [Bool.eq_iff_iff]
    simp only [List.all_eq_true]
    exact ⟨fun ha n hn => ha n ((h n).mpr hn), fun ha n hn => ha n ((h n).mp hn)⟩
  have e2 : (l1.all fun c => drinkCategories.contains c)
      = (l2.all fun c => drinkCategories.contains c) := by
    rw [Bool.eq_iff_iff]
    simp only [List.all_eq_true]
    exact ⟨fun ha n hn => ha n ((h n).mpr hn), fun ha n hn => ha n ((h n).mp hn)⟩
  rw [e1, e2]

/-- C4: the ticket's category tag is a pure function of the set of distinct
category names underlying the order's menu items: Food when every distinct
name is in the food set, Beverages when (not so and) every distinct name is
in the beverage set, Mixed otherwise; and two item lists whose distinct
category-name sets agree — any permutation, any duplicates — get the same
tag. -/
theorem category_classifier_set_function (db : DB) (ids ids2 : List Nat)
    (hset : ∀ n, n ∈ distinctCategoryNames db ids ↔ n ∈ distinctCategoryNames db ids2) :
    ((∀ n ∈ distinctCategoryNames db ids, n ∈ foodCategories) →
      classifyCategories (distinctCategoryNames db ids) = "Food") ∧
    (¬(∀ n ∈ distinctCategoryNames db ids, n ∈ foodCategories) →
      (∀ n ∈ distinctCategoryNames db ids, n ∈ drinkCategories) →
      classifyCategories (distinctCategoryNames db ids) = "Beverages") ∧
    (¬(∀ n ∈ distinctCategoryNames db ids, n ∈ foodCategories) →
      ¬(∀ n ∈ distinctCategoryNames db ids, n ∈ drinkCategories) →
      classifyCategories (distinctCategoryNames db ids) = "Mixed") ∧
    classifyCategories (distinctCategoryNames db ids) =
      classifyCategories (distinctCategoryNames db ids2) :=
  ⟨classifyCategories_food _,
   classifyCategories_beverages _,
   classifyCategories_mixed _,
   classifyCategories_congr _ _ hset⟩

/-- A catalog with one Food item (id 1) and one Drinks item (id 2). -/
def catDb : DB :=
  { menuItems := [{ id := 1, subcategoryId := 1, name := "Pie", price := 3,
                    isAvailable := true },
                  { id := 2, subcategoryId := 2, name := "Cola", price := 2,
                    isAvailable := true }]
    subcategories := [{ id := 1, categoryId := 1 }, { id := 2, categoryId := 2 }]
    categories := [{ id := 1, name := "Food" }, { id := 2, name := "Drinks" }]
    orders := [], orderItems := [], kots := [], kotItems := []
    printers := [], mappings := []
    taxRateSetting := none, kotAutoPrint := false
    nextOrderId := 1, nextOrderItemId := 1, nextKotId := 1, nextKotItemId := 1 }

/-- Witness for C4: the item lists [1, 2, 2] and [2, 1] over `catDb` carry
the same category-name set (Food and Drinks in both), and the classifier
gives them the same tag. -/
theorem category_classifier_set_function_witness :
    ((∀ n ∈ distinctCategoryNames catDb [1, 2, 2], n ∈ foodCategories) →
      classifyCategories (distinctCategoryNames catDb [1, 2, 2]) = "Food") ∧
    (¬(∀ n ∈ distinctCategoryNames catDb [1, 2, 2], n ∈ foodCategories) →
      (∀ n ∈ distinctCategoryNames catDb [1, 2, 2], n ∈ drinkCategories) →
      classifyCategories (distinctCategoryNames catDb [1, 2, 2]) = "Beverages") ∧
    (¬(∀ n ∈ distinctCategoryNames catDb [1, 2, 2], n ∈ foodCategories) →
      ¬(∀ n ∈ distinctCategoryNames catDb [1, 2, 2], n ∈ drinkCategories) →
      classifyCategories (distinctCategoryNames catDb [1, 2, 2]) = "Mixed") ∧
    classifyCategories (distinctCategoryNames catDb [1, 2, 2]) =
      classifyCategories (distinctCategoryNames catDb [2, 1]) :=
  category_classifier_set_function catDb [1, 2, 2] [2, 1]
    (fun n => by rw [show distinctCategoryNames catDb [1, 2, 2]
      = distinctCategoryNames catDb [2, 1] from by decide])

/-! ## Facts about the transaction's building blocks -/

/-- Resolution preserves the number of request lines. -/
theorem resolveItems_length (db : DB) (l : List ReqItem) :
    ∀ rs, resolveItems db l = some rs → rs.length = l.length := by
  induction l with
  | nil =>
    intro rs h
    simp only [resolveItems, Option.some.injEq] at h
    simp [← h]
  | cons it rest ih =>
    intro rs h
    simp only [resolveItems] at h
    rcases hf : findAvailableMenuItem db it.menuItemId with _ | mi <;> rw [hf] at h
    · simp at h
    · rcases hr : resolveItems db rest with _ | rs' <;> rw [hr] at h
      · simp at h
      · simp only [Option.map_some', Option.some.injEq] at h
        subst h
        simp [ih rs' hr]

/-- Every resolved line's total is its snapshot unit price times its
quantity, and its unit price is the price of some catalog row. -/
theorem resolveItems_spec (db : DB) (l : List ReqItem) :
    ∀ rs, resolveItems db l = some rs →
      ∀ r ∈ rs, r.totalPrice = r.unitPrice * (r.quantity : ℚ) ∧
        ∃ mi ∈ db.menuItems, r.unitPrice = mi.price := by
  induction l with
  | nil =>
    intro rs h
    simp only [resolveItems, Option.some.injEq] at h
    subst h
    simp
  | cons it rest ih =>
    intro rs h
    simp only [resolveItems] at h
    rcases hf : findAvailableMenuItem db it.menuItemId with _ | mi <;> rw [hf] at h
    · simp at h
    · rcases hr : resolveItems db rest with _ | rs' <;> rw [hr] at h
      · simp at h
      · simp only [Option.map_some', Option.some.injEq] at h
        subst h
        intro r hr'
        rcases List.mem_cons.mp hr' with rfl | hmem
        · refine ⟨rfl, mi, ?_, rfl⟩
          exact List.mem_of_find?_eq_some hf
        · exact ih rs' hr r hmem

/-- The order-item insert loop emits one row per resolved line. -/
theorem buildOrderItems_length (oid : Nat) :
    ∀ (s : Nat) (rs : List ResolvedItem), (buildOrderItems oid s rs).length = rs.length := by
  intro s rs
  induction rs generalizing s with
  | nil => rfl
  | cons a as ih => simp [buildOrderItems, ih]

/-- Every inserted order item carries the new order's id. -/
theorem buildOrderItems_orderId (oid : Nat) :
    ∀ (s : Nat) (rs : List ResolvedItem), ∀ r ∈ buildOrderItems oid s rs,
      r.orderId = oid := by
  intro s rs
  induction rs generalizing s with
  | nil => simp [buildOrderItems]
  | cons a as ih =>
    intro r hr
    rcases List.mem_cons.mp hr with rfl | hmem
    · rfl
    · exact ih _ r hmem

/-- The inserted order items carry the resolved lines' totals, in order. -/
theorem buildOrderItems_totalPrice (oid : Nat) :
    ∀ (s : Nat) (rs : List ResolvedItem),
      (buildOrderItems oid s rs).map (fun r => r.totalPrice)
        = rs.map fun r => r.totalPrice := by
  intro s rs
  induction rs generalizing s with
  | nil => rfl
  | cons a as ih => simp [buildOrderItems, ih]

/-- Every inserted order item copies quantity, unit price and total from some
resolved line. -/
theorem buildOrderItems_src (oid : Nat) :
    ∀ (s : Nat) (rs : List ResolvedItem), ∀ r ∈ buildOrderItems oid s rs,
      ∃ src ∈ rs, r.quantity = src.quantity ∧ r.unitPrice = src.unitPrice ∧
        r.totalPrice = src.totalPrice := by
  intro s rs
  induction rs generalizing s with
  | nil => simp [buildOrderItems]
  | cons a as ih =>
    intro r hr
    rcases List.mem_cons.mp hr with rfl | hmem
    · exact ⟨a, List.mem_cons_self a as, rfl, rfl, rfl⟩
    · obtain ⟨src, hsrc, h⟩ := ih _ r hmem
      exact ⟨src, List.mem_cons_of_mem a hsrc, h⟩

/-- The ticket-line insert loop emits one row per order item. -/
theorem buildKotItems_length (db : DB) (kid : Nat) :
    ∀ (s : Nat) (rows : List OrderItemRow),
      (buildKotItems db kid s rows).length = rows.length := by
  intro s rows
  induction rows generalizing s with
  | nil => rfl
  | cons a as ih => simp [buildKotItems, ih]

/-- Every inserted ticket line carries the new ticket's id. -/
theorem buildKotItems_kotId (db : DB) (kid : Nat) :
    ∀ (s : Nat) (rows : List OrderItemRow), ∀ r ∈ buildKotItems db kid s rows,
      r.kotId = kid := by
  intro s rows
  induction rows generalizing s with
  | nil => simp [buildKotItems]
  | cons a as ih =>
    intro r hr
    rcases List.mem_cons.mp hr with rfl | hmem
    · rfl
    · exact ih _ r hmem

/-- The inserted ticket lines reference exactly the inserted order items, in
order. -/
theorem buildKotItems_orderItemId (db : DB) (kid : Nat) :
    ∀ (s : Nat) (rows : List OrderItemRow),
      (buildKotItems db kid s rows).map (fun r => r.orderItemId)
        = rows.map fun r => r.id := by
  intro s rows
  induction rows generalizing s with
  | nil => rfl
  | cons a as ih => simp [buildKotItems, ih]

/-- Unfolding of the transaction on its success path: when the result is the
201 outcome, the request validated, every line resolved, and the state is
exactly the commit of the built rows. -/
theorem createOrderTxn_created_eq (db : DB) (req : CreateReq) (f : Fault)
    (now rand : Nat)
    (h : (createOrderTxn db req f now rand).1.isCreated = true) :
    ∃ resolved, resolveItems db req.items = some resolved ∧
      createOrderTxn db req f now rand =
        (CreateResult.created (buildTxn db req resolved now rand).order.id
          (buildTxn db req resolved now rand).order.orderNumber
          (buildTxn db req resolved now rand).kot.kotNumber
          (buildTxn db req resolved now rand).order.totalAmount
          (buildTxn db req resolved now rand).kot.id,
         commitTxn db (buildTxn db req resolved now rand)) := by
  by_cases hv : validReq req = true
  · rcases hr : resolveItems db req.items with _ | resolved
    · simp [createOrderTxn, hv, hr, CreateResult.isCreated] at h
    · by_cases h1 : f.failOrderInsert = true
      · simp [createOrderTxn, hv, hr, h1, CreateResult.isCreated] at h
      · by_cases h2 : faultHits f.failOrderItemInsert resolved.length = true
        · simp [createOrderTxn, hv, hr, h1, h2, CreateResult.isCreated] at h
        · by_cases h3 : f.failKotInsert = true
          · simp [createOrderTxn, hv, hr, h1, h2, h3, CreateResult.isCreated] at h
          · by_cases h4 : faultHits f.failKotItemInsert resolved.length = true
            · simp [createOrderTxn, hv, hr, h1, h2, h3, h4,
                CreateResult.isCreated] at h
            · refine ⟨resolved, rfl, ?_⟩
              simp [createOrderTxn, hv, hr, h1, h2, h3, h4]
  · simp [createOrderTxn, hv, CreateResult.isCreated] at h

/-- Unfolding of the transaction on its failure paths: any non-201 outcome
leaves the state untouched (the rollback). -/
theorem createOrderTxn_not_created (db : DB) (req : CreateReq) (f : Fault)
    (now rand : Nat)
    (h : (createOrderTxn db req f now rand).1.isCreated = false) :
    (createOrderTxn db req f now rand).2 = db := by
  by_cases hv : validReq req = true
  · rcases hr : resolveItems db req.items with _ | resolved
    · simp [createOrderTxn, hv, hr]
    · by_cases h1 : f.failOrderInsert = true
      · simp [createOrderTxn, hv, hr, h1]
      · by_cases h2 : faultHits f.failOrderItemInsert resolved.length = true
        · simp [createOrderTxn, hv, hr, h1, h2]
        · by_cases h3 : f.failKotInsert = true
          · simp [createOrderTxn, hv, hr, h1, h2, h3]
          · by_cases h4 : faultHits f.failKotItemInsert resolved.length = true
            · simp [createOrderTxn, hv, hr, h1, h2, h3, h4]
            · simp [createOrderTxn, hv, hr, h1, h2, h3, h4,
                CreateResult.isCreated] at h
  · simp [createOrderTxn, hv]

/-- Projections of the built transaction rows, in closed form. -/
theorem buildTxn_fields (db : DB) (req : CreateReq) (resolved : List ResolvedItem)
    (now rand : Nat) :
    (buildTxn db req resolved now rand).order.subtotal
        = (resolved.map fun r => r.totalPrice).sum ∧
    (buildTxn db req resolved now rand).order.taxAmount
        = round2 ((resolved.map fun r => r.totalPrice).sum * taxRateOf db / 100) ∧
    (buildTxn db req resolved now rand).order.totalAmount
        = (resolved.map fun r => r.totalPrice).sum
          + round2 ((resolved.map fun r => r.totalPrice).sum * taxRateOf db / 100) ∧
    (buildTxn db req resolved now rand).order.discountAmount = 0 ∧
    (buildTxn db req resolved now rand).order.id = db.nextOrderId ∧
    (buildTxn db req resolved now rand).items
        = buildOrderItems db.nextOrderId db.nextOrderItemId resolved ∧
    (buildTxn db req resolved now rand).kot.id = db.nextKotId ∧
    (buildTxn db req resolved now rand).kot.orderId = db.nextOrderId ∧
    (buildTxn db req resolved now rand).kotItems
        = buildKotItems db db.nextKotId db.nextKotItemId
            (buildOrderItems db.nextOrderId db.nextOrderItemId resolved) :=
  ⟨rfl, rfl, rfl, rfl, rfl, rfl, rfl, rfl, rfl⟩

/-! ## C1: order creation is all-or-nothing -/

/-- C1: on every failing path of the create-order transaction — validation,
a missing or unavailable menu item, or a database fault at the order,
order-item, KOT or KOT-item insert — the state is returned unchanged, so no
row of the request survives; on the success path the state is exactly the
commit of one order row, one order-item row per request line (each carrying
the order's id), exactly one KOT for the order, and exactly one KOT item per
order item. -/
theorem create_order_atomic (db : DB) (req : CreateReq) (f : Fault)
    (now rand : Nat) :
    ((createOrderTxn db req f now rand).1.isCreated = false →
      (createOrderTxn db req f now rand).2 = db) ∧
    ((createOrderTxn db req f now rand).1.isCreated = true →
      ∃ out : TxnOut,
        (createOrderTxn db req f now rand).1 =
          CreateResult.created out.order.id out.order.orderNumber out.kot.kotNumber
            out.order.totalAmount out.kot.id ∧
        (createOrderTxn db req f now rand).2 = commitTxn db out ∧
        out.items.length = req.items.length ∧
        (∀ r ∈ out.items, r.orderId = out.order.id) ∧
        out.kot.orderId = out.order.id ∧
        out.kotItems.length = out.items.length ∧
        (∀ r ∈ out.kotItems, r.kotId = out.kot.id) ∧
        out.kotItems.map (fun r => r.orderItemId) = out.items.map fun r => r.id) := by
  refine ⟨createOrderTxn_not_created db req f now rand, fun h => ?_⟩
  obtain ⟨resolved, hr, heq⟩ := createOrderTxn_created_eq db req f now rand h
  obtain ⟨_, _, _, _, hoid, hitems, hkid, hkoid, hkitems⟩ :=
    buildTxn_fields db req resolved now rand
  refine ⟨buildTxn db req resolved now rand, by rw [heq], by rw [heq],
    ?_, ?_, ?_, ?_, ?_, ?_⟩
  · rw [hitems, buildOrderItems_length]
    exact resolveItems_length db req.items resolved hr
  · rw [hitems, hoid]
    exact buildOrderItems_orderId db.nextOrderId db.nextOrderItemId resolved
  · rw [hkoid, hoid]
  · rw [hkitems, hitems, buildKotItems_length, buildOrderItems_length]
  · rw [hkitems, hkid]
    exact buildKotItems_kotId db db.nextKotId db.nextKotItemId _
  · rw [hkitems, hitems]
    exact buildKotItems_orderItemId db db.nextKotId db.nextKotItemId _

/-- A state with one available menu item priced 1.00 and a configured tax
rate of 8.5. -/
def txnDb : DB :=
  { menuItems := [{ id := 1, subcategoryId := 1, name := "Tea", price := 1,
                    isAvailable := true }]
    subcategories := [], categories := []
    orders := [], orderItems := [], kots := [], kotItems := []
    printers := [], mappings := []
    taxRateSetting := some (17 / 2)
    kotAutoPrint := false
    nextOrderId := 1, nextOrderItemId := 1, nextKotId := 1, nextKotItemId := 1 }

/-- A valid one-line Dine-in request for menu item 1. -/
def txnReq : CreateReq :=
  { tableId := none, sessionId := none, customerName := none
    orderType := "Dine-in"
    items := [{ menuItemId := 1, quantity := 1, specialInstructions := none }]
    specialInstructions := none
    userId := 1 }

/-- Witness for C1 at the concrete state `txnDb` and request `txnReq` with no
injected fault. -/
theorem create_order_atomic_witness :
    ((createOrderTxn txnDb txnReq noFault 0 0).1.isCreated = false →
      (createOrderTxn txnDb txnReq noFault 0 0).2 = txnDb) ∧
    ((createOrderTxn txnDb txnReq noFault 0 0).1.isCreated = true →
      ∃ out : TxnOut,
        (createOrderTxn txnDb txnReq noFault 0 0).1 =
          CreateResult.created out.order.id out.order.orderNumber out.kot.kotNumber
            out.order.totalAmount out.kot.id ∧
        (createOrderTxn txnDb txnReq noFault 0 0).2 = commitTxn txnDb out ∧
        out.items.length = txnReq.items.length ∧
        (∀ r ∈ out.items, r.orderId = out.order.id) ∧
        out.kot.orderId = out.order.id ∧
        out.kotItems.length = out.items.length ∧
        (∀ r ∈ out.kotItems, r.kotId = out.kot.id) ∧
        out.kotItems.map (fun r => r.orderItemId) = out.items.map fun r => r.id) :=
  create_order_atomic txnDb txnReq noFault 0 0

/-- Storage rounding keeps non-negative amounts non-negative. -/
theorem round2_nonneg (q : ℚ) (h : 0 ≤ q) : 0 ≤ round2 q := by
  unfold round2
  rw [if_pos h, round_eq]
  have h1 : (0 : ℤ) ≤ ⌊q * 100 + 1 / 2⌋ := Int.floor_nonneg.mpr (by linarith)
  have h2 : (0 : ℚ) ≤ (⌊q * 100 + 1 / 2⌋ : ℚ) := by exact_mod_cast h1
  exact div_nonneg h2 (by norm_num)

/-! ## C3: financial invariants of a created order -/

/-- C3: for every successfully created order (with non-negative catalog
prices and a non-negative configured tax rate), the persisted financial
fields satisfy total = subtotal + tax − discount exactly — hence within the
0.01 tolerance — with discount 0 in this flow and a non-negative total; each
order item's total price is its snapshot unit price times its quantity, and
the subtotal is the sum of the line totals. -/
theorem order_financials (db : DB) (req : CreateReq) (f : Fault) (now rand : Nat)
    (hprice : ∀ mi ∈ db.menuItems, 0 ≤ mi.price)
    (htax : 0 ≤ taxRateOf db)
    (h : (createOrderTxn db req f now rand).1.isCreated = true) :
    ∃ out : TxnOut,
      (createOrderTxn db req f now rand).2 = commitTxn db out ∧
      out.order.discountAmount = 0 ∧
      out.order.totalAmount
        = out.order.subtotal + out.order.taxAmount - out.order.discountAmount ∧
      |out.order.totalAmount
        - (out.order.subtotal + out.order.taxAmount - out.order.discountAmount)|
        ≤ 1 / 100 ∧
      0 ≤ out.order.totalAmount ∧
      (∀ r ∈ out.items, r.totalPrice = r.unitPrice * (r.quantity : ℚ)) ∧
      out.order.subtotal = (out.items.map fun r => r.totalPrice).sum := by
  obtain ⟨resolved, hr, heq⟩ := createOrderTxn_created_eq db req f now rand h
  obtain ⟨hsub, htaxa, htot, hdisc, _, hitems, _, _, _⟩ :=
    buildTxn_fields db req resolved now rand
  have hS : 0 ≤ (resolved.map fun r => r.totalPrice).sum := by
    apply List.sum_nonneg
    intro x hx
    rw [List.mem_map] at hx
    obtain ⟨r, hrm, rfl⟩ := hx
    obtain ⟨htp, mi, hmi, hup⟩ := resolveItems_spec db req.items resolved hr r hrm
    rw [htp, hup]
    exact mul_nonneg (hprice mi hmi) (by positivity)
  have hbal : (buildTxn db req resolved now rand).order.totalAmount
      = (buildTxn db req resolved now rand).order.subtotal
        + (buildTxn db req resolved now rand).order.taxAmount
        - (buildTxn db req resolved now rand).order.discountAmount := by
    rw [htot, hsub, htaxa, hdisc, sub_zero]
  refine ⟨buildTxn db req resolved now rand, by rw [heq], hdisc, hbal, ?_, ?_, ?_, ?_⟩
  · rw [hbal, sub_self, abs_zero]
    norm_num
  · rw [htot]
    exact add_nonneg hS
      (round2_nonneg _ (div_nonneg (mul_nonneg hS htax) (by norm_num)))
  · rw [hitems]
    intro r hrm
    obtain ⟨src, hsrc, hq, hu, ht⟩ :=
      buildOrderItems_src db.nextOrderId db.nextOrderItemId resolved r hrm
    obtain ⟨htp, _, _, _⟩ := resolveItems_spec db req.items resolved hr src hsrc
    rw [ht, hu, hq, htp]
  · rw [hsub, hitems, buildOrderItems_totalPrice]

/-- Witness for C3 at `txnDb`/`txnReq`: prices and the 8.5 tax rate are
non-negative and the creation succeeds. -/
theorem order_financials_witness :
    ∃ out : TxnOut,
      (createOrderTxn txnDb txnReq noFault 0 0).2 = commitTxn txnDb out ∧
      out.order.discountAmount = 0 ∧
      out.order.totalAmount
        = out.order.subtotal + out.order.taxAmount - out.order.discountAmount ∧
      |out.order.totalAmount
        - (out.order.subtotal + out.order.taxAmount - out.order.discountAmount)|
        ≤ 1 / 100 ∧
      0 ≤ out.order.totalAmount ∧
      (∀ r ∈ out.items, r.totalPrice = r.unitPrice * (r.quantity : ℚ)) ∧
      out.order.subtotal = (out.items.map fun r => r.totalPrice).sum :=
  order_financials txnDb txnReq noFault 0 0
    (by intro mi hmi; simp [txnDb] at hmi; simp [hmi])
    (by norm_num [taxRateOf, txnDb])
    (by decide)

/-! ## C7: the stored tax amount is the rounded product -/

/-- C7: for every created order, the stored tax_amount is subtotal ×
(configured tax rate / 100) rounded to two decimal places with standard
rounding (half away from zero, not truncation), as the tax_amount
DECIMAL(10,2) column applies on insert, and the stored total is the subtotal
plus that rounded tax; in particular a subtotal of 100.00 at rate 8.5 yields
tax 8.50 and total 108.50, and a subtotal of 1.00 at rate 8.5 stores 0.09 —
rounded up from the raw 0.085, not truncated to 0.08. -/
theorem tax_rounded_to_two_decimals (db : DB) (req : CreateReq) (f : Fault)
    (now rand : Nat)
    (h : (createOrderTxn db req f now rand).1.isCreated = true) :
    ∃ out : TxnOut,
      (createOrderTxn db req f now rand).2 = commitTxn db out ∧
      out.order.taxAmount = round2 (out.order.subtotal * taxRateOf db / 100) ∧
      out.order.totalAmount = out.order.subtotal + out.order.taxAmount ∧
      (out.order.subtotal = 100 → taxRateOf db = 17 / 2 →
        out.order.taxAmount = 17 / 2 ∧ out.order.totalAmount = 217 / 2) ∧
      (out.order.subtotal = 1 → taxRateOf db = 17 / 2 →
        out.order.taxAmount = 9 / 100 ∧ out.order.totalAmount = 109 / 100) := by
  obtain ⟨resolved, hr, heq⟩ := createOrderTxn_created_eq db req f now rand h
  obtain ⟨hsub, htaxa, htot, _, _, _, _, _, _⟩ :=
    buildTxn_fields db req resolved now rand
  refine ⟨buildTxn db req resolved now rand, by rw [heq], ?_, ?_, ?_, ?_⟩
  · rw [htaxa, hsub]
  · rw [htot, hsub, htaxa]
  · intro h100 hrate
    have hS100 : (resolved.map fun r => r.totalPrice).sum = 100 := by
      rw [← hsub]
      exact h100
    constructor
    · rw [htaxa, hS100, hrate]
      norm_num [round2, round_eq]
    · rw [htot, hS100, hrate]
      norm_num [round2, round_eq]
  · intro h1 hrate
    have hS1 : (resolved.map fun r => r.totalPrice).sum = 1 := by
      rw [← hsub]
      exact h1
    constructor
    · rw [htaxa, hS1, hrate]
      norm_num [round2, round_eq]
    · rw [htot, hS1, hrate]
      norm_num [round2, round_eq]

/-- A state whose single menu item costs 100.00, at tax rate 8.5. -/
def tax100Db : DB :=
  { txnDb with
    menuItems := [{ id := 1, subcategoryId := 1, name := "Feast", price := 100,
                    isAvailable := true }] }

/-- Witness for C7 at a 100.00 order with tax rate 8.5. -/
theorem tax_rounded_to_two_decimals_witness :
    ∃ out : TxnOut,
      (createOrderTxn tax100Db txnReq noFault 0 0).2 = commitTxn tax100Db out ∧
      out.order.taxAmount
        = round2 (out.order.subtotal * taxRateOf tax100Db / 100) ∧
      out.order.totalAmount = out.order.subtotal + out.order.taxAmount ∧
      (out.order.subtotal = 100 → taxRateOf tax100Db = 17 / 2 →
        out.order.taxAmount = 17 / 2 ∧ out.order.totalAmount = 217 / 2) ∧
      (out.order.subtotal = 1 → taxRateOf tax100Db = 17 / 2 →
        out.order.taxAmount = 9 / 100 ∧ out.order.totalAmount = 109 / 100) :=
  tax_rounded_to_two_decimals tax100Db txnReq noFault 0 0 (by decide)

/-! ## C5: printing failures never undo or fail a committed order -/

/-- `printKOT` either leaves the state untouched (every failure path) or only
rewrites the printed ticket's status fields. -/
theorem printKOT_snd (db : DB) (kotId : Nat) (connected : Bool) (now : Nat) :
    (printKOT db kotId connected now).2 = db ∨
    (printKOT db kotId connected now).2 =
      { db with kots := db.kots.map fun (k : KotRow) =>
          if k.id = kotId then { k with status := "Printed", printedAt := some now }
          else k } := by
  unfold printKOT
  split
  · exact Or.inl rfl
  · split
    · exact Or.inl rfl
    · split
      · exact Or.inl rfl
      · split
        · exact Or.inr rfl
        · exact Or.inl rfl

/-- The ticket-status rewrite of a print keeps every ticket's identity: id,
order reference and ticket number are unchanged. -/
theorem kots_identity_preserved (kots : List KotRow) (kotId now : Nat) :
    (kots.map fun (k : KotRow) =>
      if k.id = kotId then { k with status := "Printed", printedAt := some now }
      else k).map (fun k => (k.id, k.orderId, k.kotNumber))
    = kots.map fun k => (k.id, k.orderId, k.kotNumber) := by
  rw [List.map_map]
  apply List.map_congr_left
  intro k _
  by_cases h : k.id = kotId <;> simp [h, Function.comp]

/-- C5: when the create-order transaction commits, the route's response is
exactly the transaction's 201 outcome — order id, order number, ticket
number, total — whatever the auto-print attempt does (no printer available,
or a dispatch failure), and the committed order, order-item and ticket-line
rows as well as every ticket's identity survive the print attempt. -/
theorem print_failure_not_order_failure (db : DB) (req : CreateReq) (f : Fault)
    (now rand : Nat) (connected : Bool)
    (h : (createOrderTxn db req f now rand).1.isCreated = true) :
    (createOrderRoute db req f now rand connected).1
      = (createOrderTxn db req f now rand).1 ∧
    (createOrderRoute db req f now rand connected).1.isCreated = true ∧
    (createOrderRoute db req f now rand connected).2.orders
      = (createOrderTxn db req f now rand).2.orders ∧
    (createOrderRoute db req f now rand connected).2.orderItems
      = (createOrderTxn db req f now rand).2.orderItems ∧
    (createOrderRoute db req f now rand connected).2.kotItems
      = (createOrderTxn db req f now rand).2.kotItems ∧
    (createOrderRoute db req f now rand connected).2.kots.map
        (fun k => (k.id, k.orderId, k.kotNumber))
      = (createOrderTxn db req f now rand).2.kots.map
          fun k => (k.id, k.orderId, k.kotNumber) := by
  obtain ⟨resolved, hr, heq⟩ := createOrderTxn_created_eq db req f now rand h
  unfold createOrderRoute
  rw [heq]
  dsimp only
  by_cases hap : (commitTxn db (buildTxn db req resolved now rand)).kotAutoPrint = true
  · rw [if_pos hap]
    rcases printKOT_snd (commitTxn db (buildTxn db req resolved now rand))
        (buildTxn db req resolved now rand).kot.id connected now with hp | hp <;>
      rw [hp]
    · exact ⟨rfl, rfl, rfl, rfl, rfl, rfl⟩
    · exact ⟨rfl, rfl, rfl, rfl, rfl,
        kots_identity_preserved _ (buildTxn db req resolved now rand).kot.id now⟩
  · rw [if_neg hap]
    exact ⟨rfl, rfl, rfl, rfl, rfl, rfl⟩

/-- A state like `txnDb` but with auto-print enabled and no printer at all
configured. -/
def autoPrintDb : DB :=
  { txnDb with kotAutoPrint := true }

/-- Witness for C5: with auto-print on and no printer configured (the
NoPrinterAvailable case, `connected` false as well), the committed creation
still answers with its 201 outcome and rows intact. -/
theorem print_failure_not_order_failure_witness :
    (createOrderRoute autoPrintDb txnReq noFault 0 0 false).1
      = (createOrderTxn autoPrintDb txnReq noFault 0 0).1 ∧
    (createOrderRoute autoPrintDb txnReq noFault 0 0 false).1.isCreated = true ∧
    (createOrderRoute autoPrintDb txnReq noFault 0 0 false).2.orders
      = (createOrderTxn autoPrintDb txnReq noFault 0 0).2.orders ∧
    (createOrderRoute autoPrintDb txnReq noFault 0 0 false).2.orderItems
      = (createOrderTxn autoPrintDb txnReq noFault 0 0).2.orderItems ∧
    (createOrderRoute autoPrintDb txnReq noFault 0 0 false).2.kotItems
      = (createOrderTxn autoPrintDb txnReq noFault 0 0).2.kotItems ∧
    (createOrderRoute autoPrintDb txnReq noFault 0 0 false).2.kots.map
        (fun k => (k.id, k.orderId, k.kotNumber))
      = (createOrderTxn autoPrintDb txnReq noFault 0 0).2.kots.map
          fun k => (k.id, k.orderId, k.kotNumber) :=
  print_failure_not_order_failure autoPrintDb txnReq noFault 0 0 false (by decide)

/-! ## C8: what a failed dispatch actually changes -/

/-- Counterexample to C8: in `wDb` the Kitchen printer is active and online
and ticket 1 exists; the dispatch fails (`connected = false`), yet the whole
state — including the printer's is_online flag, still true — is unchanged:
`printKOT` never marks a printer offline. -/
theorem print_failure_printer_not_marked_offline :
    (printKOT wDb 1 false 7).1 = PrintResult.notConnected ∧
    (printKOT wDb 1 false 7).2 = wDb ∧
    ((printKOT wDb 1 false 7).2.printers.map fun p => p.isOnline) = [true] := by
  decide

/-- A failed test print marks exactly the targeted printer offline. -/
theorem testPrinter_false_eq (db : DB) (pid now : Nat) :
    testPrinter db pid false now = (false, markOffline db pid) := by
  unfold testPrinter
  split
  · rfl
  · rfl

/-- After `markOffline`, every printer row with the targeted id is offline. -/
theorem markOffline_spec (db : DB) (pid : Nat) :
    ∀ pr ∈ (markOffline db pid).printers, pr.id = pid → pr.isOnline = false := by
  intro pr hpr hid
  unfold markOffline at hpr
  dsimp only at hpr
  rw [List.mem_map] at hpr
  obtain ⟨q, _, rfl⟩ := hpr
  by_cases h : q.id = pid
  · simp [h]
  · simp only [if_neg h] at hid ⊢
    exact absurd hid h

/-- C8 amended: a failed KOT dispatch changes nothing at all — the ticket's
status and printed timestamp are untouched, and so is the printer's
is_online flag, which `printKOT` never writes; only the explicit test-print
operation marks a printer offline on failure; the ticket becomes Printed
with its printed timestamp set only on a successful dispatch, which leaves
the printer rows alone. -/
theorem print_dispatch_failure_effects (db : DB) (kotId pid now : Nat) :
    ((printKOT db kotId false now).1.isSuccess = false ∧
      (printKOT db kotId false now).2 = db) ∧
    (∀ p, (printKOT db kotId true now).1 = PrintResult.success p →
      (printKOT db kotId true now).2.printers = db.printers ∧
      ∀ k ∈ (printKOT db kotId true now).2.kots, k.id = kotId →
        k.status = "Printed" ∧ k.printedAt = some now) ∧
    ((testPrinter db pid false now).1 = false ∧
      ∀ pr ∈ (testPrinter db pid false now).2.printers, pr.id = pid →
        pr.isOnline = false) := by
  refine ⟨?_, ?_, ?_⟩
  · unfold printKOT
    split
    · exact ⟨rfl, rfl⟩
    · split
      · exact ⟨rfl, rfl⟩
      · split
        · exact ⟨rfl, rfl⟩
        · exact ⟨rfl, rfl⟩
  · intro p
    unfold printKOT
    split
    · intro hsucc
      exact absurd hsucc (by simp)
    · split
      · intro hsucc
        exact absurd hsucc (by simp)
      · split
        · intro hsucc
          exact absurd hsucc (by simp)
        · split
          · intro _
            refine ⟨rfl, ?_⟩
            intro k hk hkid
            dsimp only at hk
            rw [List.mem_map] at hk
            obtain ⟨k0, _, rfl⟩ := hk
            by_cases h : k0.id = kotId
            · simp [h]
            · simp only [if_neg h] at hkid ⊢
              exact absurd hkid h
          · intro hsucc
            exact absurd hsucc (by simp)
  · rw [testPrinter_false_eq]
    exact ⟨rfl, markOffline_spec db pid⟩

/-- Witness for the amended C8 at `wDb`, printer 1, ticket 1. -/
theorem print_dispatch_failure_effects_witness :
    (((printKOT wDb 1 false 7).1.isSuccess = false ∧
      (printKOT wDb 1 false 7).2 = wDb) ∧
    (∀ p, (printKOT wDb 1 true 7).1 = PrintResult.success p →
      (printKOT wDb 1 true 7).2.printers = wDb.printers ∧
      ∀ k ∈ (printKOT wDb 1 true 7).2.kots, k.id = 1 →
        k.status = "Printed" ∧ k.printedAt = some 7) ∧
    ((testPrinter wDb 1 false 7).1 = false ∧
      ∀ pr ∈ (testPrinter wDb 1 false 7).2.printers, pr.id = 1 →
        pr.isOnline = false)) ∧
    (printKOT wDb 1 true 7).1 = PrintResult.success 1 :=
  ⟨print_dispatch_failure_effects wDb 1 1 7, by decide⟩
